import Mathlib

/-!
Shallow embedding of the `fade` brightness-control frontend
(`src/App.tsx`, `src/components/Slider.tsx`, and the unnamed variant of
`App.tsx`), together with theorems settling the specification claims about
its device-state synchronization and slider value mapping.

JavaScript numbers in the slider arithmetic are modelled as rationals
(`ℚ`); brightness values carried in monitor records are integers (`Int`),
matching the backend-defined integral brightness range. The external
boundary functions (`JSON.parse`, the Tauri `invoke` of `set_brightness`)
are modelled by their result type (`Except`): the handlers are embedded as
functions of the decode / invoke outcome, exactly mirroring the
`try`/`catch` structure of the source.
-/

/-- The `MonitorInfo` record type of `App.tsx`: a unique device identifier,
the human-readable monitor name, and the brightness value. -/
structure MonitorInfo where
  device_name : String
  name : String
  brightness : Int
  deriving DecidableEq

/-- The React state held by the `App` component: the `errors` list (fed by
`setErrors`) and the `monitors` list (fed by `setMonitors`). -/
structure AppState where
  errors : List String
  monitors : List MonitorInfo
  deriving DecidableEq

/-- Observable actions performed by `handleSlider`, in program order: the
outbound Tauri `invoke` of the `set_brightness` command, the `setMonitors`
store write, and a `console.error` report. -/
inductive UiAction where
  | invoke (cmd : String) (value : Int) (deviceName : String)
  | setStore (monitors : List MonitorInfo)
  | consoleError (msg : String)
  deriving DecidableEq

/-- Effect of one action on the component state: only `setStore` mutates the
store; `invoke` and `consoleError` leave it unchanged. -/
def applyAction (st : AppState) : UiAction → AppState
  | UiAction.invoke _ _ _ => st
  | UiAction.setStore ms => { st with monitors := ms }
  | UiAction.consoleError _ => st

/-- Runs a sequence of actions over the state, in order. -/
def runActions (st : AppState) (as : List UiAction) : AppState :=
  as.foldl applyAction st

/-- The `setMonitors` updater used by `handleSlider`:
`prev.map (m => m.device_name === deviceName ? { ...m, brightness: value } : m)`. -/
def setMonitorsMap (value : Int) (deviceName : String)
    (prev : List MonitorInfo) : List MonitorInfo :=
  prev.map (fun m =>
    if m.device_name = deviceName then { m with brightness := value } else m)

/-- The action trace of `handleSlider(value, deviceName)` in `App.tsx`, as a
function of the outcome of `await invoke("set_brightness", ...)`: the invoke
is issued first; only after it resolves successfully is `setMonitors`
called, and on rejection the `catch` block logs via `console.error` (the
`setMonitors` updater is applied to the pre-call store, which in the
single-threaded model is the state at dispatch time). -/
def handleSliderTrace (value : Int) (deviceName : String)
    (invokeResult : Except String Unit) (st : AppState) : List UiAction :=
  match invokeResult with
  | Except.ok _ =>
      [UiAction.invoke "set_brightness" value deviceName,
       UiAction.setStore (setMonitorsMap value deviceName st.monitors)]
  | Except.error e =>
      [UiAction.invoke "set_brightness" value deviceName,
       UiAction.consoleError ("failed to set brightness:" ++ e)]

/-- Component state after `handleSlider` has run to completion, obtained by
running its action trace. -/
def handleSliderState (value : Int) (deviceName : String)
    (invokeResult : Except String Unit) (st : AppState) : AppState :=
  runActions st (handleSliderTrace value deviceName invokeResult st)

/-- The `socket.onmessage` handler of the current `src/App.tsx`, as a
function of the `JSON.parse(event.data)` outcome: on successful parse the
parsed list is bound (and ignored) and `setMonitors` is called with the
hardcoded two-element list `mon`; on parse failure the `catch` block appends
the error message to `errors`. -/
def onmessageApp (decoded : Except String (List MonitorInfo))
    (st : AppState) : AppState :=
  match decoded with
  | Except.ok _monitors =>
      let mon : List MonitorInfo :=
        [⟨ "\\\\.\\DISPLAY2", "Internal Display", 0 ⟩,
         ⟨ "\\\\.\\DISPLAY1", " Display", 20 ⟩]
      { st with monitors := mon }
  | Except.error msg => { st with errors := st.errors ++ [msg] }

/-- The `socket.onmessage` handler of the unnamed `App.tsx` variant
(`src/unnamed/part_000`): on successful parse `setMonitors(monitors)` stores
the decoded snapshot wholesale; on parse failure the error message is
appended to `errors`. -/
def onmessagePart (decoded : Except String (List MonitorInfo))
    (st : AppState) : AppState :=
  match decoded with
  | Except.ok monitors => { st with monitors := monitors }
  | Except.error msg => { st with errors := st.errors ++ [msg] }

/-- Processing of a stream of inbound messages in arrival order, one
`onmessage` invocation per message (part_000 variant). -/
def processMessages (msgs : List (Except String (List MonitorInfo)))
    (st : AppState) : AppState :=
  msgs.foldl (fun s m => onmessagePart m s) st

/-- Modelled from the spec: the backend `set_brightness` Tauri command lives
in the repository's Rust side (src-tauri), which is not under `src/`; per
the spec it fails with a `NotFoundError` when the targeted device id is
unknown (a command can never target an unknown device), and succeeds
otherwise. `known` is the backend's device set. -/
def set_brightness_backend (known : List String) (deviceName : String)
    (_value : Int) : Except String Unit :=
  if deviceName ∈ known then Except.ok () else Except.error "NotFoundError"

/-- Full dispatch of a brightness command: the frontend `handleSlider`
driven by the modelled backend `set_brightness`. The backend's device set is
taken to be the store's device set, since the store mirrors the backend's
snapshots. Returns the final state and the action trace. -/
def dispatchSetBrightness (value : Int) (deviceName : String)
    (st : AppState) : AppState × List UiAction :=
  (handleSliderState value deviceName
     (set_brightness_backend (st.monitors.map MonitorInfo.device_name)
       deviceName value) st,
   handleSliderTrace value deviceName
     (set_brightness_backend (st.monitors.map MonitorInfo.device_name)
       deviceName value) st)

/-- The percent mapping computed by the `valuePercent` and `centerPercent`
memos in `Slider.tsx`: `((value - minValue) / (maxValue - minValue)) * 100`.
No guard on the range is present in the source. -/
def toPercent (value minValue maxValue : ℚ) : ℚ :=
  ((value - minValue) / (maxValue - minValue)) * 100

/-- The `fillStyle` memo of `Slider.tsx`, reduced to its numeric content
`(left, width)`: if `valuePercent >= centerPercent` the fill is anchored at
the center percent with width `valuePercent - centerPercent`, otherwise it
is anchored at the value percent with width `centerPercent - valuePercent`. -/
def fillStyle (valuePercent centerPercent : ℚ) : ℚ × ℚ :=
  if valuePercent ≥ centerPercent then
    (centerPercent, valuePercent - centerPercent)
  else
    (valuePercent, centerPercent - valuePercent)

/-- The fill geometry of the slider as composed in `Slider.tsx`:
`fillStyle` applied to the value's and the center's percent. -/
def computeFill (value center minValue maxValue : ℚ) : ℚ × ℚ :=
  fillStyle (toPercent value minValue maxValue)
    (toPercent center minValue maxValue)

/-- Modelled from the spec: the position-to-value inverse mapping
`fromPosition` is realized in the source by the native
`input[type=range]` element (not repository code under `src/`); per the
spec it is the inverse of `toPercent`, rounded to the nearest integer:
`round (min + p / 100 * (max - min))`. -/
def fromPosition (positionPercent minValue maxValue : ℚ) : ℤ :=
  round (minValue + positionPercent / 100 * (maxValue - minValue))

/-- The spec's checked contract for `toPercent`, stated from the spec's
words for comparison with the source's unguarded computation: fails with a
`DomainError` when `max <= min`, otherwise returns
`(value - min) / (max - min) * 100`. -/
def toPercentSpec (value minValue maxValue : ℚ) : Except String ℚ :=
  if maxValue ≤ minValue then Except.error "DomainError"
  else Except.ok (((value - minValue) / (maxValue - minValue)) * 100)

/-- Concrete one-device state used by the concrete evaluations below:
device `D1` named `Main` with stored brightness 20 and no errors. -/
def stD1 : AppState :=
  { errors := [], monitors := [⟨ "D1", "Main", 20 ⟩] }

/-- Claim C1 counterexample: with device `D1` stored at brightness 20, a
successful local command sets brightness 50 (the optimistic/pending value,
at some dispatch counter `c`); the next snapshot — which carries the
pre-command value 20 and, in the claim's terms, a sequence marker not
exceeding `c` — is processed by the `onmessage` handler, and the stored
brightness becomes 20, not the retained optimistic value 50 the claim
requires: the code carries no sequence markers and never retains a pending
value. -/
theorem pending_value_stomped_by_snapshot_cex :
    (onmessagePart (Except.ok [⟨ "D1", "Main", 20 ⟩])
        (handleSliderState 50 "D1" (Except.ok ()) stD1)).monitors
      = [⟨ "D1", "Main", 20 ⟩]
    ∧ (MonitorInfo.brightness ⟨ "D1", "Main", 20 ⟩ : Int) ≠ 50 := by
  exact ⟨rfl, by decide⟩

/-- Claim C1 (amended): processing an external snapshot unconditionally
overwrites the whole device store with the snapshot's records, even
immediately after a successful local brightness command — the code keeps no
dispatch counters, no per-device pendingOptimistic state, and no sequence
markers, so a local intent is never retained against any snapshot. -/
theorem snapshot_always_overwrites (st : AppState) (value : Int)
    (dn : String) (snap : List MonitorInfo) :
    (onmessagePart (Except.ok snap)
        (handleSliderState value dn (Except.ok ()) st)).monitors = snap :=
  rfl

/-- Claim C2 counterexample: with device `D1` stored at brightness 20, the
trace of `handleSlider(50, "D1")` issues the outbound `set_brightness`
request as its first action and performs the store write only afterwards;
the state at the point where the request has been issued but has not
completed (the prefix of the trace up to the invoke) still reads brightness
20 for `D1`, not the commanded 50 — refuting the claim that the optimistic
write precedes the request. -/
theorem write_precedes_request_cex :
    handleSliderTrace 50 "D1" (Except.ok ()) stD1
      = [UiAction.invoke "set_brightness" 50 "D1",
         UiAction.setStore [⟨ "D1", "Main", 50 ⟩]]
    ∧ (runActions stD1
        ((handleSliderTrace 50 "D1" (Except.ok ()) stD1).take 1)).monitors
      = [⟨ "D1", "Main", 20 ⟩]
    ∧ (20 : Int) ≠ 50 := by
  exact ⟨rfl, rfl, by decide⟩

/-- Claim C2 (amended): the store write happens only after the outbound
request completes successfully — the trace of a successful call is the
invoke followed by the `setMonitors` write, the state after the request is
issued (before completion) is unchanged, and once the request succeeds the
targeted record carries the commanded value in the store. -/
theorem store_write_follows_successful_request (value : Int) (dn : String)
    (st : AppState) (m : MonitorInfo) (hm : m ∈ st.monitors)
    (hd : m.device_name = dn) :
    handleSliderTrace value dn (Except.ok ()) st
      = [UiAction.invoke "set_brightness" value dn,
         UiAction.setStore (setMonitorsMap value dn st.monitors)]
    ∧ runActions st ((handleSliderTrace value dn (Except.ok ()) st).take 1)
      = st
    ∧ { m with brightness := value }
      ∈ (handleSliderState value dn (Except.ok ()) st).monitors := by
  refine ⟨rfl, rfl, ?_⟩
  have h1 : (handleSliderState value dn (Except.ok ()) st).monitors
      = setMonitorsMap value dn st.monitors := rfl
  rw [h1, setMonitorsMap]
  have h2 := List.mem_map_of_mem
    (fun m => if m.device_name = dn then { m with brightness := value }
      else m) hm
  simpa [hd] using h2

/-- Witness for `store_write_follows_successful_request`, at the concrete
state `stD1` with the command `handleSlider(50, "D1")`. -/
theorem store_write_follows_successful_request_witness :
    (⟨ "D1", "Main", 20 ⟩ : MonitorInfo) ∈ stD1.monitors
    ∧ (MonitorInfo.device_name ⟨ "D1", "Main", 20 ⟩) = "D1"
    ∧ (handleSliderTrace 50 "D1" (Except.ok ()) stD1
        = [UiAction.invoke "set_brightness" 50 "D1",
           UiAction.setStore (setMonitorsMap 50 "D1" stD1.monitors)]
      ∧ runActions stD1
          ((handleSliderTrace 50 "D1" (Except.ok ()) stD1).take 1) = stD1
      ∧ ({ (⟨ "D1", "Main", 20 ⟩ : MonitorInfo) with brightness := 50 })
        ∈ (handleSliderState 50 "D1" (Except.ok ()) stD1).monitors) :=
  ⟨by decide, by decide,
   store_write_follows_successful_request 50 "D1" stD1
     ⟨ "D1", "Main", 20 ⟩ (by decide) (by decide)⟩

/-- Claim C3 counterexample: with device `D1` stored at brightness 20, a
failing `handleSlider(50, "D1")` leaves the stored brightness at 20, the
pre-command value — not at the commanded value 50 that the claim says is
retained (no optimistic write ever happened, so there is nothing to keep). -/
theorem failure_rollback_cex :
    (handleSliderState 50 "D1" (Except.error "request failed") stD1).monitors
      = [⟨ "D1", "Main", 20 ⟩]
    ∧ ¬ (handleSliderState 50 "D1"
          (Except.error "request failed") stD1).monitors
        = [⟨ "D1", "Main", 50 ⟩] := by
  exact ⟨rfl, by decide⟩

/-- Claim C3 (amended): when the outbound request fails, the component state
is entirely unchanged — the store still holds the pre-command value, since
no write had been applied before the request — and the failure is logged via
`console.error` (not appended to the component's `errors` state). -/
theorem failed_request_leaves_store_unchanged (value : Int) (dn e : String)
    (st : AppState) :
    handleSliderState value dn (Except.error e) st = st
    ∧ handleSliderTrace value dn (Except.error e) st
      = [UiAction.invoke "set_brightness" value dn,
         UiAction.consoleError ("failed to set brightness:" ++ e)] :=
  ⟨rfl, rfl⟩

/-- Claim C4, evaluated at the failing input: processing the well-formed
snapshot `[{device_name: "D3", name: "Ext", brightness: 7}]` with the
current `App.tsx` `onmessage` handler leaves the store holding the
hardcoded two-device list, not the snapshot's records — the parsed payload
is bound and then ignored. The `part_000` variant of the same handler does
store the snapshot's records wholesale, as the claim describes. -/
theorem onmessage_ignores_snapshot_payload :
    (onmessageApp (Except.ok [⟨ "D3", "Ext", 7 ⟩]) stD1).monitors
      = [⟨ "\\\\.\\DISPLAY2", "Internal Display", 0 ⟩,
         ⟨ "\\\\.\\DISPLAY1", " Display", 20 ⟩]
    ∧ (onmessageApp (Except.ok [⟨ "D3", "Ext", 7 ⟩]) stD1).monitors
      ≠ [⟨ "D3", "Ext", 7 ⟩]
    ∧ (onmessagePart (Except.ok [⟨ "D3", "Ext", 7 ⟩]) stD1).monitors
      = [⟨ "D3", "Ext", 7 ⟩] := by
  exact ⟨rfl, by decide, rfl⟩

/-- Claim C5: a brightness command targeting a device id absent from the
store fails with `NotFoundError` in the modelled backend, the failure is
reported (via the `console.error` action), no store write is performed, and
the state is unchanged. -/
theorem unknown_device_command_dropped (value : Int) (dn : String)
    (st : AppState)
    (h : dn ∉ st.monitors.map MonitorInfo.device_name) :
    (dispatchSetBrightness value dn st).1 = st
    ∧ (dispatchSetBrightness value dn st).2
      = [UiAction.invoke "set_brightness" value dn,
         UiAction.consoleError
           ("failed to set brightness:" ++ "NotFoundError")] := by
  have hr : set_brightness_backend
      (st.monitors.map MonitorInfo.device_name) dn value
      = Except.error "NotFoundError" := if_neg h
  unfold dispatchSetBrightness
  rw [hr]
  exact ⟨rfl, rfl⟩

/-- Witness for `unknown_device_command_dropped`: the id `D9` is absent from
the concrete store `stD1`, and a command targeting it is dropped and
reported. -/
theorem unknown_device_command_dropped_witness :
    "D9" ∉ stD1.monitors.map MonitorInfo.device_name
    ∧ ((dispatchSetBrightness 7 "D9" stD1).1 = stD1
      ∧ (dispatchSetBrightness 7 "D9" stD1).2
        = [UiAction.invoke "set_brightness" 7 "D9",
           UiAction.consoleError
             ("failed to set brightness:" ++ "NotFoundError")]) :=
  ⟨by decide, unknown_device_command_dropped 7 "D9" stD1 (by decide)⟩

/-- Claim C6: a malformed inbound message (one whose decode fails) leaves
the monitor list unchanged and appends exactly one error report, in both
observed variants of the `onmessage` handler, and processing of subsequent
messages proceeds from the updated state (the failure does not stop the
stream). -/
theorem malformed_message_single_error (msg : String) (st : AppState)
    (rest : List (Except String (List MonitorInfo))) :
    (onmessagePart (Except.error msg) st).monitors = st.monitors
    ∧ (onmessagePart (Except.error msg) st).errors = st.errors ++ [msg]
    ∧ (onmessageApp (Except.error msg) st).monitors = st.monitors
    ∧ (onmessageApp (Except.error msg) st).errors = st.errors ++ [msg]
    ∧ processMessages (Except.error msg :: rest) st
      = processMessages rest (onmessagePart (Except.error msg) st) :=
  ⟨rfl, rfl, rfl, rfl, rfl⟩

/-- Claim C7: for any value, center and range with `max > min`, the fill
geometry anchors at the center percent with width
`toPercent value - toPercent center` when the value percent is at least the
center percent, anchors at the value percent with width
`toPercent center - toPercent value` otherwise, and in both cases the width
is nonnegative. -/
theorem computeFill_fill_geometry (v c mn mx : ℚ) (h : mn < mx) :
    (toPercent v mn mx ≥ toPercent c mn mx →
      computeFill v c mn mx
        = (toPercent c mn mx, toPercent v mn mx - toPercent c mn mx))
    ∧ (¬ toPercent v mn mx ≥ toPercent c mn mx →
      computeFill v c mn mx
        = (toPercent v mn mx, toPercent c mn mx - toPercent v mn mx))
    ∧ 0 ≤ (computeFill v c mn mx).2 := by
  unfold computeFill fillStyle
  by_cases hc : toPercent v mn mx ≥ toPercent c mn mx
  · rw [if_pos hc]
    exact ⟨fun _ => rfl, fun hn => absurd hc hn,
      by simpa using sub_nonneg.mpr hc⟩
  · rw [if_neg hc]
    refine ⟨fun hp => absurd hp hc, fun _ => rfl, ?_⟩
    have hlt : toPercent v mn mx ≤ toPercent c mn mx :=
      le_of_lt (lt_of_not_ge hc)
    simpa using sub_nonneg.mpr hlt

/-- Witness for `computeFill_fill_geometry`, at the configuration observed
in `App.tsx`: value 50, center 0, range −100..100. -/
theorem computeFill_fill_geometry_witness :
    (-100 : ℚ) < 100
    ∧ ((toPercent 50 (-100) 100 ≥ toPercent 0 (-100) 100 →
        computeFill 50 0 (-100) 100
          = (toPercent 0 (-100) 100,
             toPercent 50 (-100) 100 - toPercent 0 (-100) 100))
      ∧ (¬ toPercent 50 (-100) 100 ≥ toPercent 0 (-100) 100 →
        computeFill 50 0 (-100) 100
          = (toPercent 50 (-100) 100,
             toPercent 0 (-100) 100 - toPercent 50 (-100) 100))
      ∧ 0 ≤ (computeFill 50 0 (-100) 100).2) :=
  ⟨by norm_num, computeFill_fill_geometry 50 0 (-100) 100 (by norm_num)⟩

/-- Claim C8: for every integer value `v` within a range `min < max`, the
position-to-value mapping (nearest-integer rounding of the inverse affine
map, as realized by the native range input) is a left inverse of the
source's percent mapping: `fromPosition (toPercent v) = v`. -/
theorem fromPosition_toPercent_roundtrip (mn mx v : ℤ) (h1 : mn < mx)
    (h2 : mn ≤ v) (h3 : v ≤ mx) :
    fromPosition (toPercent (v : ℚ) (mn : ℚ) (mx : ℚ)) (mn : ℚ) (mx : ℚ)
      = v := by
  have hne : (mx : ℚ) - (mn : ℚ) ≠ 0 := by
    have : (mn : ℚ) < (mx : ℚ) := by exact_mod_cast h1
    exact sub_ne_zero.mpr (ne_of_gt this)
  unfold fromPosition toPercent
  have harg : (mn : ℚ)
      + ((v : ℚ) - (mn : ℚ)) / ((mx : ℚ) - (mn : ℚ)) * 100 / 100
        * ((mx : ℚ) - (mn : ℚ)) = (v : ℚ) := by
    field_simp
    ring
  rw [harg]
  exact round_intCast v

/-- Witness for `fromPosition_toPercent_roundtrip`, with the observed range
−100..100 and the value 50. -/
theorem fromPosition_toPercent_roundtrip_witness :
    (-100 : ℤ) < 100 ∧ (-100 : ℤ) ≤ 50 ∧ (50 : ℤ) ≤ 100
    ∧ fromPosition (toPercent ((50 : ℤ) : ℚ) ((-100 : ℤ) : ℚ)
        ((100 : ℤ) : ℚ)) ((-100 : ℤ) : ℚ) ((100 : ℤ) : ℚ) = 50 :=
  ⟨by decide, by decide, by decide,
   fromPosition_toPercent_roundtrip (-100) 100 50 (by decide) (by decide)
     (by decide)⟩

/-- Claim C9 counterexample: at `value = 5, min = 0, max = 0` (so
`max <= min`), the source's percent computation does not fail — it
evaluates the division anyway and yields a plain number (0 in the rational
model; in JavaScript the unguarded division runs as well) — whereas the
spec's checked mapping fails with a `DomainError`. No guard exists in the
source. -/
theorem toPercent_unguarded_cex :
    toPercent 5 0 0 = 0
    ∧ toPercentSpec 5 0 0 = Except.error "DomainError" := by
  constructor
  · unfold toPercent
    norm_num
  · rfl

/-- Claim C9 (amended): the source computes
`(value − min) / (max − min) × 100` unconditionally, with no `DomainError`
path and no guard on the denominator; the spec's checked mapping agrees with
the source's computation exactly on the valid domain `max > min`. -/
theorem toPercentSpec_agrees_on_valid_range (v mn mx : ℚ) (h : mn < mx) :
    toPercentSpec v mn mx = Except.ok (toPercent v mn mx) := by
  unfold toPercentSpec
  rw [if_neg (not_le.mpr h)]
  rfl

/-- Witness for `toPercentSpec_agrees_on_valid_range`, on the range 0..1. -/
theorem toPercentSpec_agrees_on_valid_range_witness :
    (0 : ℚ) < 1
    ∧ toPercentSpec 5 0 1 = Except.ok (toPercent 5 0 1) :=
  ⟨by norm_num, toPercentSpec_agrees_on_valid_range 5 0 1 (by norm_num)⟩

/-- Claim C10: a successful brightness command is a frame-preserving update
of the store — the list keeps its length (and, positions being preserved,
its order); at every position the record keeps its `device_name` and `name`,
and its `brightness` is replaced by the commanded value exactly when its
`device_name` matches the target, otherwise left unchanged. -/
theorem setBrightness_frame (value : Int) (dn : String) (st : AppState)
    (i : ℕ) (m : MonitorInfo) (h : st.monitors[i]? = some m) :
    (handleSliderState value dn (Except.ok ()) st).monitors.length
      = st.monitors.length
    ∧ ∃ m', (handleSliderState value dn (Except.ok ()) st).monitors[i]?
        = some m'
      ∧ m'.device_name = m.device_name
      ∧ m'.name = m.name
      ∧ m'.brightness
        = (if m.device_name = dn then value else m.brightness) := by
  have hmap : (handleSliderState value dn (Except.ok ()) st).monitors
      = st.monitors.map (fun m =>
          if m.device_name = dn then { m with brightness := value }
          else m) := rfl
  constructor
  · rw [hmap, List.length_map]
  · refine ⟨if m.device_name = dn then { m with brightness := value }
      else m, ?_, ?_, ?_, ?_⟩
    · rw [hmap, List.getElem?_map, h]
      rfl
    · by_cases hd : m.device_name = dn <;> simp [hd]
    · by_cases hd : m.device_name = dn <;> simp [hd]
    · by_cases hd : m.device_name = dn <;> simp [hd]

/-- Witness for `setBrightness_frame`, at the concrete store `stD1` with the
command `handleSlider(50, "D1")` and position 0. -/
theorem setBrightness_frame_witness :
    stD1.monitors[0]? = some ⟨ "D1", "Main", 20 ⟩
    ∧ ((handleSliderState 50 "D1" (Except.ok ()) stD1).monitors.length
        = stD1.monitors.length
      ∧ ∃ m', (handleSliderState 50 "D1" (Except.ok ()) stD1).monitors[0]?
          = some m'
        ∧ m'.device_name = MonitorInfo.device_name ⟨ "D1", "Main", 20 ⟩
        ∧ m'.name = MonitorInfo.name ⟨ "D1", "Main", 20 ⟩
        ∧ m'.brightness
          = (if MonitorInfo.device_name ⟨ "D1", "Main", 20 ⟩ = "D1"
             then (50 : Int)
             else MonitorInfo.brightness ⟨ "D1", "Main", 20 ⟩)) :=
  ⟨rfl, setBrightness_frame 50 "D1" stD1 0 ⟨ "D1", "Main", 20 ⟩ rfl⟩
